import Mathlib

/-!
Verification of the video2ascii frame-to-glyph rendering pipeline
(`src/video2ascii.cpp`) against its natural-language specification.

The C++ source is shallowly embedded: machine integers become `ℕ`/`ℤ`
(channel values are 8-bit and all intermediate arithmetic fits in `int`,
so no wraparound modelling is needed), `double` arithmetic used for
geometry and delays becomes `ℚ` (the formulas involved — an aspect
quotient, `1000/fps` — are exact rational computations and the spec
states them as such), `static_cast<int>` on a nonnegative `double`
becomes truncation toward zero on `ℚ`, strings become Lean `String`s,
and the playback loop becomes a trace of terminal events.
-/

namespace Video2Ascii

/-! ### Global constants (video2ascii.cpp lines 14–27) -/

/-- Embedding of `constexpr char asciiChars[] = {'@','%','#','*','+','=','-',':','.',' '}` -/
def asciiChars : List Char := ['@', '%', '#', '*', '+', '=', '-', ':', '.', ' ']

/-- Embedding of `constexpr int asciiLen = sizeof(asciiChars)` — 10, the array byte size. -/
def asciiLen : ℕ := asciiChars.length

def MIN_HEIGHT : ℤ := 20
def MIN_WIDTH : ℤ := 40
def MAX_HEIGHT : ℤ := 120
def MAX_WIDTH : ℤ := 200
def DEFAULT_FRAMERATE : ℚ := 30

namespace Color

def BLACK : String := "\x1b[30m"
def RED : String := "\x1b[31m"
def GREEN : String := "\x1b[32m"
def BLUE : String := "\x1b[34m"
def WHITE : String := "\x1b[37m"
def BRIGHT_BLACK : String := "\x1b[90m"
def BRIGHT_RED : String := "\x1b[91m"
def BRIGHT_GREEN : String := "\x1b[92m"
def BRIGHT_BLUE : String := "\x1b[94m"
def BRIGHT_WHITE : String := "\x1b[97m"
def TRUECOLOR : String := "\x1b[38;2;"
def RESET : String := "\x1b[0m"

def DARK_THRESHOLD : ℕ := 30
def GRAYSCALE_VARIANCE : ℕ := 20
def VERY_BRIGHT : ℕ := 200
def BRIGHT : ℕ := 120
def MEDIUM_BRIGHT : ℕ := 128

end Color

/-! ### Shared primitives -/

/-- Embedding of `std::clamp(v, lo, hi)` on `int`: `(v < lo) ? lo : ((hi < v) ? hi : v)`. -/
def stdClamp (v lo hi : ℤ) : ℤ :=
  if v < lo then lo else if hi < v then hi else v

/-- Embedding of `std::clamp` specialised to the nonnegative pixel arithmetic of the
inner render loop (all operands fit in `ℕ`). -/
def stdClampNat (v lo hi : ℕ) : ℕ :=
  if v < lo then lo else if hi < v then hi else v

/-- Embedding of `static_cast<int>` applied to a nonnegative `double`: truncation toward
zero, modelled on `ℚ` by T-division of numerator by denominator. -/
def cppTrunc (q : ℚ) : ℤ :=
  Int.tdiv q.num (q.den : ℤ)

/-- Embedding of `brightnessToAscii` (lines 267–270):
`index = brightness * (asciiLen - 1) / 255; return asciiChars[index];`.
The raw array access is modelled with `List.getD`; the out-of-range
default `'?'` is proved unreachable for in-range brightness (claim C10). -/
def brightnessToAscii (brightness : ℕ) : Char :=
  asciiChars.getD (brightness * (asciiLen - 1) / 255) '?'

/-! Spec-side gradient, written out from the specification's words
("the 10-glyph gradient ['@','%','#','*','+','=','-',':','.',' ']"),
to be compared with the source's `asciiChars` table. -/

/-- The glyph gradient exactly as the specification lists it. -/
def specGradient : List Char := ['@', '%', '#', '*', '+', '=', '-', ':', '.', ' ']

/-- The specification's brightness-to-glyph map:
`glyph(b) = gradient[ floor(b*(N-1)/255) ]` with `N = 10`. -/
def specGlyph (b : ℕ) : Char :=
  specGradient.getD (b * (specGradient.length - 1) / 255) '?'

/-! ### ANSI color classification (lines 272–291) -/

/-- Embedding of `rgbToAnsiColor` (lines 272–291), a transliteration of the C++ branch
structure: dark check, grayscale-variance check, dominant-channel check,
fallback to white. -/
def rgbToAnsiColor (r g b brightness : ℕ) : String :=
  if brightness < Color.DARK_THRESHOLD then Color.BLACK
  else
    let maxC := max r (max g b)
    let minC := min r (min g b)
    if maxC - minC < Color.GRAYSCALE_VARIANCE then
      if brightness > Color.VERY_BRIGHT then Color.BRIGHT_WHITE
      else if brightness > Color.BRIGHT then Color.WHITE
      else Color.BRIGHT_BLACK
    else
      let bright := brightness > Color.MEDIUM_BRIGHT
      if r > g ∧ r > b then (if bright then Color.BRIGHT_RED else Color.RED)
      else if g > r ∧ g > b then (if bright then Color.BRIGHT_GREEN else Color.GREEN)
      else if b > r ∧ b > g then (if bright then Color.BRIGHT_BLUE else Color.BLUE)
      else Color.WHITE

/-- The brightness fed to the per-pixel emitters by the ANSI/Full branches
of `loadFrames` (lines 234/243): `std::clamp((r + g + b) / 3, 0, 255)`. -/
def pixelBrightness (r g b : ℕ) : ℕ :=
  stdClampNat ((r + g + b) / 3) 0 255

/-! Spec-side classifier, written from the specification's sentence
(priority order: dark, near-gray by brightness band, strictly dominant
channel with bright/dim variant, tie fallback), as an abstract color name
mapped separately onto the escape strings. -/

inductive AnsiColor where
  | black | red | green | blue | white
  | brightBlack | brightRed | brightGreen | brightBlue | brightWhite
deriving DecidableEq

def AnsiColor.escape : AnsiColor → String
  | .black => Color.BLACK
  | .red => Color.RED
  | .green => Color.GREEN
  | .blue => Color.BLUE
  | .white => Color.WHITE
  | .brightBlack => Color.BRIGHT_BLACK
  | .brightRed => Color.BRIGHT_RED
  | .brightGreen => Color.BRIGHT_GREEN
  | .brightBlue => Color.BRIGHT_BLUE
  | .brightWhite => Color.BRIGHT_WHITE

/-- The classification exactly as the specification words it. -/
def specAnsiClassify (r g b brightness : ℕ) : AnsiColor :=
  if brightness < 30 then .black
  else if max r (max g b) - min r (min g b) < 20 then
    if brightness > 200 then .brightWhite
    else if brightness > 120 then .white
    else .brightBlack
  else if r > g ∧ r > b then (if brightness > 128 then .brightRed else .red)
  else if g > r ∧ g > b then (if brightness > 128 then .brightGreen else .green)
  else if b > r ∧ b > g then (if brightness > 128 then .brightBlue else .blue)
  else .white

/-! ### True-color emission (lines 293–307) -/

/-- Embedding of `rgbToTrueColor` (lines 293–307), mirroring the C++ `+=` chain:
the truecolor prefix, then the three decimal channel values separated by
`';'`, then `'m'`, then the glyph for the brightness, then the reset. -/
def rgbToTrueColor (r g b brightness : ℕ) : String :=
  ((((("" ++ Color.TRUECOLOR ++ toString r).push ';' ++ toString g).push ';'
      ++ toString b).push 'm').push (brightnessToAscii brightness)) ++ Color.RESET

/-- The Full-mode per-pixel emission of `loadFrames` (lines 239–245):
brightness is the clamped integer average, and the whole unit is the
true-color string. -/
def fullPixelUnit (r g b : ℕ) : String :=
  rgbToTrueColor r g b (pixelBrightness r g b)

/-! ### Geometry resolution (lines 186–198) -/

/-- Embedding of `getTargetDimensions` (lines 186–198): when the requested width is
unset (≤ 0), derive it from the *pre-clamp* requested height via
`static_cast<int>(targetHeight * videoAspect / charAspect)` with
`charAspect = 0.5`, then clamp height and width independently.
Returns the resolved (height, width) pair. -/
def getTargetDimensions (videoWidth videoHeight : ℚ)
    (targetHeight targetWidth : ℤ) : ℤ × ℤ :=
  let videoAspect := videoWidth / videoHeight
  let charAspect : ℚ := 1 / 2
  let tw := if targetWidth ≤ 0 then
      cppTrunc ((targetHeight : ℚ) * videoAspect / charAspect)
    else targetWidth
  (stdClamp targetHeight MIN_HEIGHT MAX_HEIGHT, stdClamp tw MIN_WIDTH MAX_WIDTH)

/-! ### Delay derivation (lines 200–206) -/

/-- Embedding of `getDelayMs` (lines 200–206): an explicit framerate override (the
`Options.framerate` field differs from its `-1` default) yields
`1000.0 / framerate`; otherwise the source's reported fps is used, with
nonpositive values replaced by `DEFAULT_FRAMERATE` (30). -/
def getDelayMs (sourceFps : ℚ) (framerate : ℤ) : ℚ :=
  if framerate ≠ -1 then 1000 / (framerate : ℚ)
  else if sourceFps ≤ 0 then 1000 / DEFAULT_FRAMERATE
  else 1000 / sourceFps

/-! ### The frame rendering loop of `loadFrames` (lines 208–257) -/

/-- A `cv::Vec3b` BGR pixel as indexed in `loadFrames`
(`px[0]` = blue, `px[1]` = green, `px[2]` = red). -/
structure Vec3b where
  b : ℕ
  g : ℕ
  r : ℕ
deriving DecidableEq

/-- The None-mode inner loop body (lines 246–251): clamp the gray sample,
compute the gradient index inline, emit one glyph character. -/
def grayPixelUnit (px : ℕ) : String :=
  let brightness := stdClampNat px 0 255
  let index := brightness * (asciiLen - 1) / 255
  String.singleton (asciiChars.getD index '?')

/-- The ANSI-mode inner loop body (lines 230–238): color escape, glyph,
reset. -/
def ansiPixelUnit (px : Vec3b) : String :=
  rgbToAnsiColor px.r px.g px.b (pixelBrightness px.r px.g px.b)
    ++ String.singleton (brightnessToAscii (pixelBrightness px.r px.g px.b))
    ++ Color.RESET

/-- The Full-mode inner loop body (lines 239–245) on a BGR pixel. -/
def fullPixelUnitVec (px : Vec3b) : String :=
  fullPixelUnit px.r px.g px.b

/-- The per-frame accumulation of `loadFrames` (lines 213–255): a single
output stream, appended unit by unit left-to-right within a row, rows
visited top-to-bottom, a newline pushed after each row. -/
def renderFrame {α : Type} (unit : α → String) (grid : List (List α)) : String :=
  grid.foldl
    (fun acc row => (row.foldl (fun acc2 p => acc2 ++ unit p) acc).push '\n') ""

/-- The Glyph Renderer in mode None, on a grid of gray samples. -/
def renderFrameNone (grid : List (List ℕ)) : String :=
  renderFrame grayPixelUnit grid

/-- The Glyph Renderer in mode ANSI, on a grid of BGR pixels. -/
def renderFrameANSI (grid : List (List Vec3b)) : String :=
  renderFrame ansiPixelUnit grid

/-- The Glyph Renderer in mode Full, on a grid of BGR pixels. -/
def renderFrameFull (grid : List (List Vec3b)) : String :=
  renderFrame fullPixelUnitVec grid

/-- Spec-side shape of one output line: the row's units concatenated
left-to-right with no separator, followed by a line terminator. -/
def lineOfRow {α : Type} (unit : α → String) (row : List α) : String :=
  String.join (row.map unit) ++ "\n"

/-- Spec-side shape of a GlyphFrame: one line per grid row, emitted
top-to-bottom. -/
def specFrame {α : Type} (unit : α → String) (grid : List (List α)) : String :=
  String.join (grid.map (lineOfRow unit))

/-! ### The playback loop of `animateAscii` (lines 259–265, 330–336) -/

/-- The observable terminal actions of the playback loop. -/
inductive TermEvent where
  | clear
  | write (s : String)
  | flush
  | sleep (ms : ℤ)
deriving DecidableEq

/-- Embedding of `animateAscii` (lines 259–265) as an event trace: for each frame
string in buffer order, `clearScreen()`, then `std::cout << frameStr
<< std::flush`, then `sleep_for(milliseconds(static_cast<int>(delayMs)))`. -/
def animateAscii (asciiFrames : List String) (delayMs : ℚ) : List TermEvent :=
  asciiFrames.foldl
    (fun acc frameStr =>
      acc ++ [TermEvent.clear, TermEvent.write frameStr, TermEvent.flush,
        TermEvent.sleep (cppTrunc delayMs)]) []

/-- Projection of a trace event onto the frame text it writes, if any. -/
def writeOf : TermEvent → Option String
  | .write s => some s
  | _ => none

/-- Projection of a trace event onto the sleep duration it requests, if
any. -/
def sleepOf : TermEvent → Option ℤ
  | .sleep ms => some ms
  | _ => none

/-! ### Helper lemmas -/

/-- Truncation toward zero agrees with `⌊·⌋` on nonnegative rationals. -/
theorem cppTrunc_eq_floor (q : ℚ) (hq : 0 ≤ q) : cppTrunc q = ⌊q⌋ := by
  rw [Rat.floor_def]
  exact Int.tdiv_eq_ediv (Rat.num_nonneg.mpr hq) (Int.natCast_nonneg _)

theorem push_eq_append (s : String) (c : Char) :
    s.push c = s ++ String.singleton c := rfl

theorem singleton_newline : String.singleton '\n' = "\n" := by decide

theorem join_cons (s : String) (l : List String) :
    String.join (s :: l) = s ++ String.join l := by
  apply String.ext
  simp [String.join_eq]

theorem foldl_append_join (l : List String) (acc : String) :
    l.foldl (fun a s => a ++ s) acc = acc ++ String.join l := by
  induction l generalizing acc with
  | nil => simp [String.join]
  | cons s t ih =>
    rw [List.foldl_cons, ih, join_cons, String.append_assoc]

theorem foldl_unit_append {α : Type} (unit : α → String) (row : List α)
    (acc : String) :
    row.foldl (fun a p => a ++ unit p) acc = acc ++ String.join (row.map unit) := by
  rw [← List.foldl_map, foldl_append_join]

theorem renderFrame_go {α : Type} (unit : α → String) (grid : List (List α))
    (acc : String) :
    grid.foldl
        (fun a row => (row.foldl (fun a2 p => a2 ++ unit p) a).push '\n') acc =
      acc ++ specFrame unit grid := by
  induction grid generalizing acc with
  | nil => simp [specFrame, String.join]
  | cons row rest ih =>
    rw [List.foldl_cons, foldl_unit_append, push_eq_append, singleton_newline,
      ih]
    simp [specFrame, lineOfRow, join_cons, String.append_assoc]

theorem renderFrame_eq_specFrame {α : Type} (unit : α → String)
    (grid : List (List α)) :
    renderFrame unit grid = specFrame unit grid := by
  rw [renderFrame, renderFrame_go]
  exact String.empty_append _

theorem foldl_append_flatten {α β : Type} (f : α → List β) (l : List α)
    (acc : List β) :
    l.foldl (fun a x => a ++ f x) acc = acc ++ (l.map f).flatten := by
  induction l generalizing acc with
  | nil => simp
  | cons x t ih => simp [ih]

theorem animateAscii_eq_flatten (frames : List String) (d : ℚ) :
    animateAscii frames d =
      (frames.map fun f =>
        [TermEvent.clear, TermEvent.write f, TermEvent.flush,
          TermEvent.sleep (cppTrunc d)]).flatten := by
  rw [animateAscii, foldl_append_flatten]
  rfl

theorem filterMap_writeOf (frames : List String) (d : ℚ) :
    ((frames.map fun f =>
        [TermEvent.clear, TermEvent.write f, TermEvent.flush,
          TermEvent.sleep (cppTrunc d)]).flatten).filterMap writeOf = frames := by
  induction frames with
  | nil => simp
  | cons f t ih => simp [writeOf, ih]

theorem filterMap_sleepOf (frames : List String) (d : ℚ) :
    ((frames.map fun f =>
        [TermEvent.clear, TermEvent.write f, TermEvent.flush,
          TermEvent.sleep (cppTrunc d)]).flatten).filterMap sleepOf =
      frames.map fun _ => cppTrunc d := by
  induction frames with
  | nil => simp
  | cons f t ih => simp [sleepOf, ih]

/-! ### Claim theorems -/

/-- Claim C1. For every brightness `b ∈ [0,255]`, the brightness-to-glyph
mapping returns `gradient[⌊b*(N-1)/255⌋]` over the fixed 10-glyph gradient
`['@','%','#','*','+','=','-',':','.',' ']`; in particular `glyph(0) = '@'`
and `glyph(255) = ' '`. -/
theorem brightnessToAscii_matches_spec_gradient :
    (∀ b : ℕ, b ≤ 255 → brightnessToAscii b = specGlyph b) ∧
    brightnessToAscii 0 = '@' ∧ brightnessToAscii 255 = ' ' := by
  refine ⟨fun b _ => rfl, rfl, rfl⟩

/-- Witness for C1: the mapping evaluated at the concrete brightness 100. -/
theorem brightnessToAscii_matches_spec_gradient_witness :
    brightnessToAscii 100 = specGlyph 100 :=
  brightnessToAscii_matches_spec_gradient.1 100 (by decide)

/-- Claim C2. For every RGB pixel in ANSI mode, with brightness the clamped
integer average `(R+G+B)/3`, the classifier agrees with the specification's
priority-ordered classification: dark → black; near-gray → bright-white /
white / bright-black by brightness band; strictly dominant channel →
red/green/blue in bright or dim variant by the 128 threshold; tie → white. -/
theorem rgbToAnsiColor_matches_spec (r g b : ℕ)
    (hr : r ≤ 255) (hg : g ≤ 255) (hb : b ≤ 255) :
    rgbToAnsiColor r g b (pixelBrightness r g b) =
      (specAnsiClassify r g b (pixelBrightness r g b)).escape := by
  unfold rgbToAnsiColor specAnsiClassify
  simp only [Color.DARK_THRESHOLD, Color.GRAYSCALE_VARIANCE, Color.VERY_BRIGHT,
    Color.BRIGHT, Color.MEDIUM_BRIGHT]
  split_ifs <;> rfl

/-- Witness for C2 at the specification's example pixel R=200, G=20, B=20
(brightness 80 → dim red). -/
theorem rgbToAnsiColor_matches_spec_witness :
    rgbToAnsiColor 200 20 20 (pixelBrightness 200 20 20) =
      (specAnsiClassify 200 20 20 (pixelBrightness 200 20 20)).escape :=
  rgbToAnsiColor_matches_spec 200 20 20 (by decide) (by decide) (by decide)

/-- Claim C4. In Full (true-color) mode, with brightness the same integer
average as ANSI mode, the emitted unit is exactly
`"\x1b[38;2;R;G;Bm" ++ glyph(brightness) ++ "\x1b[0m"` with the exact
channel values; for R=12, G=34, B=56 the brightness is 34 and the emission
is `"\x1b[38;2;12;34;56m" ++ glyph(34) ++ "\x1b[0m"`. -/
theorem rgbToTrueColor_emission :
    (∀ r g b brightness : ℕ,
      rgbToTrueColor r g b brightness =
        "\x1b[38;2;" ++ toString r ++ ";" ++ toString g ++ ";" ++ toString b
          ++ "m" ++ (brightnessToAscii brightness).toString ++ "\x1b[0m") ∧
    pixelBrightness 12 34 56 = 34 ∧
    fullPixelUnit 12 34 56 =
      "\x1b[38;2;12;34;56m" ++ (brightnessToAscii 34).toString ++ "\x1b[0m" := by
  refine ⟨fun r g b brightness => ?_, by decide, ?_⟩
  · apply String.ext
    simp [rgbToTrueColor, Char.toString, String.singleton, Color.TRUECOLOR,
      Color.RESET]
  · decide

/-- Claim C3. When the target width is unset, the resolver computes
`width = ⌊height * (pixelWidth/pixelHeight) / 0.5⌋` from the pre-clamp
requested height and only afterwards clamps height to [20,120] and width
to [40,200] independently; the resolved pair always lies within bounds,
and for a 16:9 source with requested height 60 the derived width 213 is
clamped to 200. -/
theorem getTargetDimensions_spec (pw ph : ℚ) (h : ℤ)
    (hpw : 0 ≤ pw) (hph : 0 < ph) (hh : 0 ≤ h) :
    getTargetDimensions pw ph h 0 =
      (stdClamp h MIN_HEIGHT MAX_HEIGHT,
       stdClamp ⌊(h : ℚ) * (pw / ph) / (1 / 2 : ℚ)⌋ MIN_WIDTH MAX_WIDTH) ∧
    (MIN_HEIGHT ≤ (getTargetDimensions pw ph h 0).1 ∧
     (getTargetDimensions pw ph h 0).1 ≤ MAX_HEIGHT ∧
     MIN_WIDTH ≤ (getTargetDimensions pw ph h 0).2 ∧
     (getTargetDimensions pw ph h 0).2 ≤ MAX_WIDTH) ∧
    getTargetDimensions 16 9 60 0 = (60, 200) := by
  have harg : (0 : ℚ) ≤ (h : ℚ) * (pw / ph) / (1 / 2 : ℚ) := by
    have hh' : (0 : ℚ) ≤ (h : ℚ) := by exact_mod_cast hh
    positivity
  refine ⟨?_, ⟨?_, ?_, ?_, ?_⟩, ?_⟩
  · simp only [getTargetDimensions, if_pos (le_refl (0 : ℤ)),
      cppTrunc_eq_floor _ harg]
  pick_goal 5
  · simp only [getTargetDimensions, if_pos (le_refl (0 : ℤ))]
    rw [cppTrunc_eq_floor _ (by norm_num)]
    norm_num [stdClamp, MIN_HEIGHT, MAX_HEIGHT, MIN_WIDTH, MAX_WIDTH]
  all_goals
    simp only [getTargetDimensions, stdClamp, MIN_HEIGHT, MAX_HEIGHT,
      MIN_WIDTH, MAX_WIDTH]
    split_ifs <;> omega

/-- Witness for C3: a 16:9 source with requested height 60 and width
unset resolves to height 60 and width 200. -/
theorem getTargetDimensions_spec_witness :
    getTargetDimensions 16 9 60 0 = (60, 200) :=
  (getTargetDimensions_spec 16 9 60 (by norm_num) (by norm_num)
    (by norm_num)).2.2

/-- Claim C5. The per-frame delay is derived once before playback: with an
explicit override `r` (any valid rate, `1 ≤ r`), the delay is `1000/r`
milliseconds — exactly 40ms for r = 25; without an override, the delay is
`1000/fps` for a positive reported fps and `1000/30` when the reported
fps is not positive. -/
theorem getDelayMs_spec :
    (∀ (fps : ℚ) (r : ℤ), 1 ≤ r → getDelayMs fps r = 1000 / (r : ℚ)) ∧
    (∀ fps : ℚ, getDelayMs fps 25 = 40) ∧
    (∀ fps : ℚ, 0 < fps → getDelayMs fps (-1) = 1000 / fps) ∧
    (∀ fps : ℚ, fps ≤ 0 → getDelayMs fps (-1) = 1000 / 30) := by
  refine ⟨fun fps r hr => ?_, fun fps => ?_, fun fps hfps => ?_,
    fun fps hfps => ?_⟩
  · rw [getDelayMs, if_pos (by omega : r ≠ -1)]
  · rw [getDelayMs, if_pos (by decide : (25 : ℤ) ≠ -1)]
    norm_num
  · rw [getDelayMs, if_neg (by simp), if_neg (not_le.mpr hfps)]
  · rw [getDelayMs, if_neg (by simp), if_pos hfps]
    rfl

/-- Witness for C5: override 25 gives a 40ms delay, applied at a source
fps of 24. -/
theorem getDelayMs_spec_witness : getDelayMs 24 25 = 1000 / (25 : ℚ) :=
  getDelayMs_spec.1 24 25 (by decide)

/-- Each None-mode unit is a single glyph character. -/
theorem grayPixelUnit_length (px : ℕ) : (grayPixelUnit px).length = 1 := rfl

/-- A None-mode line carries exactly one glyph per pixel of its row. -/
theorem join_grayUnits_length (row : List ℕ) :
    (String.join (row.map grayPixelUnit)).length = row.length := by
  induction row with
  | nil => rfl
  | cons px t ih =>
    rw [List.map_cons, join_cons, String.length_append, grayPixelUnit_length,
      ih, List.length_cons, Nat.add_comm]

/-- Claim C6. Every GlyphFrame produced by the renderer has the line
structure the spec states: one line per grid row, rows emitted
top-to-bottom, each line being that row's glyph/escape units concatenated
left-to-right with no separator and followed by a newline — in all three
color modes; in mode None a line over a row of `w` pixels has exactly `w`
glyphs before its newline; and the 1-row, 2-column mode-None grid with
pixel values [0, 255] renders to `"@" ++ " " ++ "\n"`. -/
theorem renderFrame_line_structure :
    (∀ grid : List (List ℕ),
      renderFrameNone grid = specFrame grayPixelUnit grid) ∧
    (∀ grid : List (List Vec3b),
      renderFrameANSI grid = specFrame ansiPixelUnit grid) ∧
    (∀ grid : List (List Vec3b),
      renderFrameFull grid = specFrame fullPixelUnitVec grid) ∧
    (∀ row : List ℕ, (lineOfRow grayPixelUnit row).length = row.length + 1) ∧
    renderFrameNone [[0, 255]] = "@" ++ " " ++ "\n" := by
  refine ⟨fun grid => renderFrame_eq_specFrame _ _,
    fun grid => renderFrame_eq_specFrame _ _,
    fun grid => renderFrame_eq_specFrame _ _,
    fun row => ?_, by decide⟩
  rw [lineOfRow, String.length_append, join_grayUnits_length]
  rfl

/-- Claim C7. Playback displays every frame of the ordered buffer exactly
once, in buffer order, with no skipping, looping or reordering: the trace
of `animateAscii` is exactly, per frame in order, clear–write–flush–sleep
with the same fixed delay for every frame, and it ends after the last
frame's group; consequently the written frames are exactly the buffer. -/
theorem animateAscii_plays_frames_in_order :
    (∀ (frames : List String) (d : ℚ),
      animateAscii frames d =
        (frames.map fun f =>
          [TermEvent.clear, TermEvent.write f, TermEvent.flush,
            TermEvent.sleep (cppTrunc d)]).flatten) ∧
    (∀ (frames : List String) (d : ℚ),
      (animateAscii frames d).filterMap writeOf = frames) := by
  refine ⟨animateAscii_eq_flatten, fun frames d => ?_⟩
  rw [animateAscii_eq_flatten, filterMap_writeOf]

/-- Claim C8. Rendering is deterministic: in every color mode, rendering
equal pixel grids yields identical GlyphFrame strings — the renderer is a
pure function of the grid with no hidden state. -/
theorem renderFrame_deterministic :
    (∀ g g' : List (List ℕ), g = g' → renderFrameNone g = renderFrameNone g') ∧
    (∀ c c' : List (List Vec3b), c = c' → renderFrameANSI c = renderFrameANSI c') ∧
    (∀ c c' : List (List Vec3b), c = c' → renderFrameFull c = renderFrameFull c') :=
  ⟨fun _ _ h => h ▸ rfl, fun _ _ h => h ▸ rfl, fun _ _ h => h ▸ rfl⟩

/-- Witness for C8: rendering the concrete one-pixel grid twice gives the
same string. -/
theorem renderFrame_deterministic_witness :
    renderFrameNone [[0]] = renderFrameNone [[0]] :=
  renderFrame_deterministic.1 [[0]] [[0]] rfl

/-- Claim C9. The duration slept between frames is the computed delay
truncated to whole milliseconds (`static_cast<int>(delayMs)`): every sleep
in the playback trace is `cppTrunc delayMs`, for an integer override `r`
that truncation equals `⌊1000/r⌋`, and the 30 fps default (no override,
nonpositive reported fps) sleeps 33ms per frame, not 33.33ms. -/
theorem animateAscii_sleep_truncated :
    (∀ (frames : List String) (d : ℚ),
      (animateAscii frames d).filterMap sleepOf =
        frames.map fun _ => cppTrunc d) ∧
    (∀ (fps : ℚ) (r : ℤ), 1 ≤ r →
      cppTrunc (getDelayMs fps r) = ⌊(1000 : ℚ) / (r : ℚ)⌋) ∧
    cppTrunc (getDelayMs 0 (-1)) = 33 := by
  refine ⟨fun frames d => ?_, fun fps r hr => ?_, ?_⟩
  · rw [animateAscii_eq_flatten, filterMap_sleepOf]
  · have hr0 : (0 : ℤ) < r := by omega
    have hr' : (0 : ℚ) < (r : ℚ) := by exact_mod_cast hr0
    rw [getDelayMs, if_pos (by omega : r ≠ -1)]
    exact cppTrunc_eq_floor _ (by positivity)
  · have h0 : getDelayMs 0 (-1) = 1000 / 30 := by
      rw [getDelayMs, if_neg (by simp), if_pos (le_refl (0 : ℚ))]
      rfl
    rw [h0, cppTrunc_eq_floor _ (by norm_num)]
    norm_num

/-- Witness for C9: with override 30 the per-frame sleep is
`⌊1000/30⌋ = 33` milliseconds. -/
theorem animateAscii_sleep_truncated_witness :
    cppTrunc (getDelayMs 24 30) = ⌊(1000 : ℚ) / ((30 : ℤ) : ℚ)⌋ :=
  animateAscii_sleep_truncated.2.1 24 30 (by decide)

set_option maxRecDepth 4096 in
/-- Claim C10. For every pixel in every mode the computed brightness lies in
[0,255] and the clamp never changes the value (byte channels give
`(R+G+B)/3 ≤ 255`), hence the gradient index `⌊brightness*9/255⌋` lies in
[0,9] and the glyph-table lookup of `brightnessToAscii` never goes out of
bounds (the glyph is always a member of the table). -/
theorem brightness_index_in_bounds :
    (∀ r g b : ℕ, r ≤ 255 → g ≤ 255 → b ≤ 255 →
      pixelBrightness r g b = (r + g + b) / 3 ∧
      pixelBrightness r g b ≤ 255 ∧
      pixelBrightness r g b * (asciiLen - 1) / 255 < asciiChars.length) ∧
    (∀ px : ℕ, px ≤ 255 → stdClampNat px 0 255 = px) ∧
    (∀ brightness : ℕ, brightness ≤ 255 →
      brightnessToAscii brightness ∈ asciiChars) := by
  refine ⟨fun r g b hr hg hb => ?_, fun px hpx => ?_, by decide⟩
  · have hb3 : (r + g + b) / 3 ≤ 255 := by omega
    have hcl : pixelBrightness r g b = (r + g + b) / 3 := by
      simp only [pixelBrightness, stdClampNat]
      split_ifs <;> omega
    refine ⟨hcl, by omega, ?_⟩
    rw [hcl]
    simp only [asciiLen, asciiChars, List.length_cons, List.length_nil]
    omega
  · simp only [stdClampNat]
    split_ifs <;> omega

/-- Witness for C10: at the all-white pixel (255,255,255) the brightness
is 255, the clamp is the identity, and the index stays in bounds. -/
theorem brightness_index_in_bounds_witness :
    pixelBrightness 255 255 255 = (255 + 255 + 255) / 3 ∧
    pixelBrightness 255 255 255 ≤ 255 ∧
    pixelBrightness 255 255 255 * (asciiLen - 1) / 255 < asciiChars.length :=
  brightness_index_in_bounds.1 255 255 255 (by decide) (by decide) (by decide)

end Video2Ascii
